import Mathlib

/-!
Verification development for the OmniFix CLI (`claude_cli.py`).

The Python source is shallowly embedded: pure helpers become Lean functions,
filesystem state becomes explicit lists of entries, the remote completion
service becomes a function parameter, and Python exceptions become `Except`
values.  Paths are modelled as POSIX-style strings (or as lists of relative
components for directory trees).  The remote service itself is opaque, as in
the source.
-/

namespace OmniFix

/-- Index of the last occurrence of a dot in a list of characters, if any.
Mirrors Python `str.rfind('.')` as used by `pathlib.PurePath.suffix`. -/
def rfindDotAux : List Char → Option Nat
  | [] => none
  | c :: rest =>
    match rfindDotAux rest with
    | some i => some (i + 1)
    | none => if c = '.' then some (0 : Nat) else none

/-- Python `pathlib.PurePath.suffix` applied to a final path component: the
extension starting at the last dot, provided that dot is neither the first
nor the last character of the name; empty otherwise. -/
def pySuffix (name : String) : String :=
  let cs := name.data
  match rfindDotAux cs with
  | none => ""
  | some i => if 0 < i ∧ i + 1 < cs.length then String.mk (cs.drop i) else ""

/-- Splitting a character list at every occurrence of a separator character;
agrees with `String.splitOn` for a one-character separator, but is defined by
structural recursion so that the kernel can evaluate it. -/
def splitChar (sep : Char) : List Char → List (List Char)
  | [] => [[]]
  | c :: rest =>
    if c = sep then [] :: splitChar sep rest
    else
      match splitChar sep rest with
      | [] => [[c]]
      | g :: gs => (c :: g) :: gs

/-- The components of a POSIX path string, separated by slashes. -/
def pathComponents (path : String) : List String :=
  (splitChar '/' path.data).map String.mk

/-- Python `pathlib.PurePath.name` for POSIX paths: the final path component,
after dropping empty components and single-dot components (which `pathlib`
normalises away). -/
def pathName (path : String) : String :=
  ((pathComponents path).filter (fun c => !(c.data.isEmpty || c == "."))).getLastD ""

/-- Python `str.lower()` as used on extensions: per-character lower-casing.
(`String.toLower` is extensionally the same but is defined by position-based
recursion that the kernel cannot evaluate, so the character-list form is used
throughout the model.) -/
def pyLower (s : String) : String :=
  String.mk (s.data.map Char.toLower)

/-- The set of file extensions handled by the batch modes
(`SUPPORTED_EXTS` in `claude_cli.py`, lines 31-47). -/
def SUPPORTED_EXTS : List String :=
  [".py", ".pyw",
   ".c", ".cpp", ".cc", ".cxx", ".h", ".hpp",
   ".java",
   ".kt", ".kts",
   ".js", ".jsx",
   ".ts", ".tsx",
   ".cs",
   ".go",
   ".rs",
   ".php",
   ".html", ".htm",
   ".css",
   ".json",
   ".yaml", ".yml",
   ".xml"]

/-- The conditional chain of `detect_language` (lines 50-83), factored over the
already lower-cased extension. -/
def detect_language_of_ext (ext : String) : String :=
  if ext ∈ ([".py", ".pyw"] : List String) then "python"
  else if ext ∈ ([".c", ".cpp", ".cc", ".cxx", ".h", ".hpp"] : List String) then "cpp"
  else if ext = ".java" then "java"
  else if ext ∈ ([".kt", ".kts"] : List String) then "kotlin"
  else if ext ∈ ([".js", ".jsx"] : List String) then "javascript"
  else if ext ∈ ([".ts", ".tsx"] : List String) then "typescript"
  else if ext = ".cs" then "csharp"
  else if ext = ".go" then "go"
  else if ext = ".rs" then "rust"
  else if ext = ".php" then "php"
  else if ext ∈ ([".html", ".htm"] : List String) then "html"
  else if ext = ".css" then "css"
  else if ext = ".json" then "json"
  else if ext ∈ ([".yaml", ".yml"] : List String) then "yaml"
  else if ext = ".xml" then "xml"
  else "text"

/-- The language classifier `detect_language` (lines 50-83): lower-case the
extension of the path and run the table of conditionals. -/
def detect_language (path : String) : String :=
  detect_language_of_ext (pyLower (pySuffix (pathName path)))

/-- One filesystem entry below a batch root: its path relative to the root as
a list of components, whether it is a regular file, and (for files) its text
content. -/
structure Entry where
  path : List String
  isFile : Bool
  content : String
deriving DecidableEq, Repr

/-- Final component (file name) of an entry. -/
def Entry.name (e : Entry) : String :=
  e.path.getLastD ""

/-- The filter applied by `iter_code_files` to each entry produced by
`root.rglob` (line 91): regular files whose lower-cased extension is in the
supported set. -/
def isSupportedEntry (e : Entry) : Bool :=
  e.isFile && SUPPORTED_EXTS.contains (pyLower (pySuffix e.name))

/-- The generator `iter_code_files` (lines 86-92): all supported code files
below a root, in enumeration order. -/
def iter_code_files (tree : List Entry) : List Entry :=
  tree.filter isSupportedEntry

/-- One chat message, as passed to `client.messages.create`. -/
structure Message where
  role : String
  content : String
deriving DecidableEq, Repr

/-- One request to the completion service, as assembled by `call_claude`
(lines 100-105): model identifier, maximum output token count, sampling
temperature and the message list.  The Python float temperature is modelled
as a rational number; no arithmetic is ever performed on it. -/
structure ApiCall where
  model : String
  max_tokens : Nat
  temperature : Rat
  messages : List Message
deriving DecidableEq, Repr

/-- The opaque remote completion service: given a request it either returns
the list of text segments of the reply or fails (any exception raised by
`client.messages.create`, carrying its description). -/
def Service : Type :=
  ApiCall → Except String (List String)

/-- The model identifier `MODEL_NAME` (line 22). -/
def MODEL_NAME : String := "claude-3-haiku-20240307"

/-- The completion client `call_claude` (lines 98-108).  It returns the
request it issued together with the resulting text.  The Python `try` block
covers both the service call and the extraction of the first text segment, so
a reply with no segment at all is converted into the same error-marker string
(Python raises `IndexError` with the description below); no exception ever
reaches the caller. -/
def call_claude (svc : Service) (messages : List Message)
    (max_tokens : Nat) (temperature : Rat) : ApiCall × String :=
  let req : ApiCall := ⟨MODEL_NAME, max_tokens, temperature, messages⟩
  (req,
    match svc req with
    | Except.error e => "[API ERROR] " ++ e
    | Except.ok [] => "[API ERROR] " ++ "list index out of range"
    | Except.ok (b :: _) => b)

/-- Python exceptions that the file and path helpers can raise. -/
inductive PyError where
  | notFound (msg : String)
  | isADirectory (path : String)
  | valueError (msg : String)
deriving DecidableEq, Repr

/-- One node of the flat filesystem used by the single-file helpers: an
absolute or caller-supplied path string, whether it is a regular file, and
(for files) its UTF-8 decoded text. -/
structure FsNode where
  path : String
  isFile : Bool
  content : String
deriving DecidableEq, Repr

/-- Python `Path.exists()` over the modelled filesystem. -/
def py_exists (fs : List FsNode) (path : String) : Bool :=
  (fs.find? fun n => n.path == path).isSome

/-- Python `Path.read_text(encoding="utf-8")` over the modelled filesystem:
returns the text of a regular file, raises `IsADirectoryError` on an existing
non-file path, and `FileNotFoundError` on a missing one. -/
def py_read_text (fs : List FsNode) (path : String) : Except PyError String :=
  match fs.find? fun n => n.path == path with
  | none => Except.error (PyError.notFound path)
  | some n =>
    if n.isFile then Except.ok n.content
    else Except.error (PyError.isADirectory path)

/-- The file accessor `read_file` (lines 114-118): an explicit existence
check first, raising `FileNotFoundError` with its own message, then the
actual read. -/
def read_file (fs : List FsNode) (path : String) : Except PyError String :=
  if py_exists fs path = false then
    Except.error (PyError.notFound ("File not found: " ++ path))
  else py_read_text fs path

/-- Python truthiness of an optional string argument (argparse yields `None`
for an absent flag; an empty string is also falsy). -/
def truthy : Option String → Bool
  | none => false
  | some s => !s.data.isEmpty

/-- Python `x or d` for an optional string `x` and default `d`. -/
def pyOr (x : Option String) (d : String) : String :=
  match x with
  | none => d
  | some s => if s.data.isEmpty then d else s

/-- The parsed command-line arguments (lines 578-627).  Optional string flags
are `Option String`; `--diff` takes exactly two paths; `--max-tokens` and
`--temperature` have argparse defaults 4096 and 0.1. -/
structure Args where
  prompt : Option String
  file : Option String
  explain : Option String
  fix : Option String
  refactor : Option String
  analyze_folder : Option String
  project_qa : Option String
  question : Option String
  generate_file : Option String
  diff : Option (String × String)
  fix_folder : Option String
  refactor_folder : Option String
  rewrite_folder : Option String
  out : Option String
  max_tokens : Nat
  temperature : Rat
deriving DecidableEq, Repr

/-- The language-specific preamble of fix mode, `_lang_header_fix`
(lines 168-210). -/
def _lang_header_fix (lang : String) : String :=
  if lang = "python" then
    "You are a senior Python engineer.\n" ++
    "Fix all bugs, inefficiencies, missing checks, and anti-patterns.\n" ++
    "Preserve EXACT external behavior and public API.\n\n"
  else if lang = "cpp" then
    "You are a senior C++17 engineer.\n" ++
    "Fix all bugs, undefined behavior, memory issues, and anti-patterns.\n" ++
    "Prefer RAII, smart pointers, const-correctness, and modern STL.\n" ++
    "Preserve observable behavior and public interface.\n\n"
  else if lang = "java" then
    "You are a senior Java engineer.\n" ++
    "Fix all bugs and anti-patterns using modern Java best practices.\n" ++
    "Preserve behavior and public API.\n\n"
  else if lang = "kotlin" then
    "You are a senior Kotlin/Android engineer.\n" ++
    "Fix all bugs and improve safety using idiomatic Kotlin.\n" ++
    "Preserve behavior and public API.\n\n"
  else if lang ∈ (["javascript", "typescript"] : List String) then
    "You are a senior " ++ lang ++ " engineer.\n" ++
    "Fix all bugs, race conditions, and performance issues.\n" ++
    "Use modern language features and best practices.\n" ++
    "Preserve the observable behavior.\n\n"
  else if lang ∈ (["html", "css"] : List String) then
    "You are a senior " ++ lang.toUpper ++ " engineer.\n" ++
    "Clean up structure, fix obvious issues, and keep the same visual behavior.\n\n"
  else
    "You are a senior software engineer.\n" ++
    "Fix all obvious bugs, inefficiencies, missing checks, and anti-patterns.\n" ++
    "Preserve the same external behavior and semantics.\n\n"

/-- The language-specific preamble of refactor mode, `_lang_header_refactor`
(lines 213-254). -/
def _lang_header_refactor (lang : String) : String :=
  if lang = "python" then
    "You are a senior Python engineer.\n" ++
    "Refactor this file for readability, maintainability, structure, and comments.\n" ++
    "Maintain EXACT external behavior.\n\n"
  else if lang = "cpp" then
    "You are a senior C++17 engineer.\n" ++
    "Refactor for clarity, RAII, const-correctness, and better structure.\n" ++
    "Keep the public API and semantics unchanged.\n\n"
  else if lang = "java" then
    "You are a senior Java engineer.\n" ++
    "Refactor using clean OOP design, clear naming, and modern Java patterns.\n" ++
    "Maintain existing behavior and public API.\n\n"
  else if lang = "kotlin" then
    "You are a senior Kotlin/Android engineer.\n" ++
    "Refactor to idiomatic Kotlin, improving null-safety and readability.\n" ++
    "Preserve behavior and signatures.\n\n"
  else if lang ∈ (["javascript", "typescript"] : List String) then
    "You are a senior " ++ lang ++ " engineer.\n" ++
    "Refactor for readability, modularity, and maintainability.\n" ++
    "Use modern language features. Preserve behavior.\n\n"
  else if lang ∈ (["html", "css"] : List String) then
    "You are a senior " ++ lang.toUpper ++ " engineer.\n" ++
    "Refactor for cleaner structure, semantics, and maintainability.\n" ++
    "Keep the same visual behavior.\n\n"
  else
    "You are a senior software engineer.\n" ++
    "Refactor this file for readability, maintainability, structure, and comments.\n" ++
    "Maintain the same external behavior.\n\n"

/-- The mode-independent part of the rewrite preamble (lines 258-273). -/
def rewriteHeaderBase : String :=
  "You are a principal-level software architect.\n" ++
  "Completely REWRITE this module with a modern, clean, modular architecture.\n" ++
  "You MAY:\n" ++
  "- change function and class names\n" ++
  "- split large functions into smaller ones\n" ++
  "- introduce classes or interfaces where appropriate\n" ++
  "- reorganize responsibilities (I/O vs core logic vs config)\n" ++
  "- move script-style code into a main() or classes\n" ++
  "- remove dead code and legacy hacks\n" ++
  "You MUST:\n" ++
  "- preserve the overall PURPOSE of the module\n" ++
  "- keep it usable in the same general context\n" ++
  "- write idiomatic, production-quality code for this language\n" ++
  "- add clear docstrings/comments where helpful\n\n"

/-- The language-specific preamble of rewrite mode, `_lang_header_rewrite`
(lines 257-304). -/
def _lang_header_rewrite (lang : String) : String :=
  if lang = "python" then
    rewriteHeaderBase ++
    "Language: Python. Use modern Python best practices (type hints, clear modules).\n\n"
  else if lang = "cpp" then
    rewriteHeaderBase ++
    "Language: C++17. Use RAII, smart pointers, STL, and avoid raw new/delete where possible.\n\n"
  else if lang = "java" then
    rewriteHeaderBase ++
    "Language: Java. Use clear packages, interfaces, and patterns.\n\n"
  else if lang = "kotlin" then
    rewriteHeaderBase ++
    "Language: Kotlin. Use idiomatic Kotlin with data classes, extension functions, and proper null-safety.\n\n"
  else if lang ∈ (["javascript", "typescript"] : List String) then
    rewriteHeaderBase ++
    "Language: " ++ lang ++ ". Use modern modules, async/await, and clear separation of concerns.\n\n"
  else if lang ∈ (["html", "css"] : List String) then
    rewriteHeaderBase ++
    "Language: " ++ lang.toUpper ++ ". Use semantic structure and maintain visual intent.\n\n"
  else rewriteHeaderBase ++ "Language: generic code/text.\n\n"

/-- The prompt of fix mode, `build_fix_prompt` (lines 307-320); `text` is the
content returned by `read_file path`. -/
def build_fix_prompt (path text : String) : String :=
  _lang_header_fix (detect_language path) ++
  "File path: " ++ path ++ "\n\n" ++
  "Current content:\n" ++
  "----------------\n" ++
  text ++ "\n" ++
  "----------------\n"

/-- The prompt of refactor mode, `build_refactor_prompt` (lines 323-336). -/
def build_refactor_prompt (path text : String) : String :=
  _lang_header_refactor (detect_language path) ++
  "File path: " ++ path ++ "\n\n" ++
  "Current content:\n" ++
  "----------------\n" ++
  text ++ "\n" ++
  "----------------\n"

/-- The closing directive of the rewrite prompt (line 352). -/
def rewriteDirective : String :=
  "Now output ONLY the full rewritten file content.\n"

/-- The prompt of rewrite mode, `build_rewrite_prompt` (lines 339-353). -/
def build_rewrite_prompt (path text : String) : String :=
  _lang_header_rewrite (detect_language path) ++
  "Original file path: " ++ path ++ "\n\n" ++
  "Original file content:\n" ++
  "----------------------\n" ++
  text ++ "\n" ++
  "----------------------\n" ++
  "Now output ONLY the full rewritten file content.\n"

/-- Rendering `str(p)` of a discovered entry: the root path joined with the
relative components by the POSIX separator. -/
def renderPath (root : String) (comps : List String) : String :=
  root ++ "/" ++ String.intercalate "/" comps

/-- The listing expression shared by the two directory-level prompt builders
(lines 361 and 387): the paths of all regular files below the root, one per
line, in enumeration order. -/
def folderFileList (folder : String) (tree : List Entry) : String :=
  String.intercalate "\n"
    ((tree.filter fun e => e.isFile).map fun e => renderPath folder e.path)

/-- The prompt of analyze-folder mode, `build_folder_analysis_prompt`
(lines 359-382). -/
def build_folder_analysis_prompt (folder : String) (tree : List Entry) : String :=
  "You are a principal-level software architect.\n" ++
  "Analyze the ENTIRE project located at:\n" ++ folder ++ "\n\n" ++
  "Files included:\n" ++
  folderFileList folder tree ++ "\n\n" ++
  "For EVERY important code file, provide:\n" ++
  "- purpose summary\n" ++
  "- logic explanation\n" ++
  "- major bugs or risks\n" ++
  "- inefficiencies\n" ++
  "- weak architecture\n" ++
  "- security issues\n" ++
  "- dead code\n" ++
  "- concrete refactor recommendations\n\n" ++
  "Then propose:\n" ++
  "- improved folder structure\n" ++
  "- improved module boundaries\n" ++
  "- improved architecture\n" ++
  "- cleanup and modernization plan\n"

/-- The prompt of project-QA mode, `build_project_qa_prompt` (lines 385-394). -/
def build_project_qa_prompt (folder : String) (tree : List Entry)
    (question : String) : String :=
  "You are an expert senior engineer. Answer questions about this codebase.\n\n" ++
  "Project root: " ++ folder ++ "\n\n" ++
  "Files:\n" ++ folderFileList folder tree ++ "\n\n" ++
  "User question:\n" ++ question

/-- The prompt of one-shot mode, `build_single_prompt` (lines 138-148). -/
def build_single_prompt (fs : List FsNode) (args : Args) : Except PyError String :=
  if truthy args.file then
    (read_file fs (args.file.getD "")).map fun text =>
      "You are an expert senior software engineer.\n" ++
      "File: " ++ args.file.getD "" ++ "\n\n" ++
      text ++ "\n\n" ++
      "User request: " ++ pyOr args.prompt ""
  else Except.ok (pyOr args.prompt "")

/-- The prompt of explain mode, `build_explain_prompt` (lines 151-162). -/
def build_explain_prompt (fs : List FsNode) (path : String) : Except PyError String :=
  (read_file fs path).map fun text =>
    "Explain the following file in full detail:\n" ++
    "- overall purpose\n" ++
    "- key functions/classes\n" ++
    "- how data flows\n" ++
    "- important design decisions\n" ++
    "- potential pitfalls\n\n" ++
    "Path: " ++ path ++ "\n\n" ++
    text

/-- The prompt of diff mode, `build_diff_prompt` (lines 397-413). -/
def build_diff_prompt (fs : List FsNode) (file_a file_b : String) :
    Except PyError String := do
  let text_a ← read_file fs file_a
  let text_b ← read_file fs file_b
  pure
    ("You are an expert senior engineer. Compare the following two files.\n" ++
     "Provide:\n" ++
     "- a unified diff\n" ++
     "- summary of functional changes\n" ++
     "- improvements introduced\n" ++
     "- potential regressions\n" ++
     "- style / architecture changes\n" ++
     "- recommendations for further improvements\n\n" ++
     "File A: " ++ file_a ++ "\n" ++ text_a ++ "\n\n" ++
     "File B: " ++ file_b ++ "\n" ++ text_b ++ "\n\n" ++
     "Now produce the full analysis.")

/-- The output sink: either print to the console or write a file
(`write_output_if_needed`, lines 121-132). -/
inductive OutAction where
  | printed (text : String)
  | wrote (path : String) (text : String)
deriving DecidableEq, Repr

/-- The sink dispatch of `write_output_if_needed` (lines 121-132): print when
`--out` is absent or falsy, otherwise write to the given path (creating
parent directories, which needs no counterpart in this model). -/
def write_output_if_needed (args : Args) (content : String) : OutAction :=
  if truthy args.out = false then OutAction.printed content
  else OutAction.wrote (args.out.getD "") content

/-- Everything a single-file mode produces: the one request it issued, the
reply text, and the sink action taken on it. -/
structure SingleResult where
  call : ApiCall
  reply : String
  output : OutAction
deriving DecidableEq, Repr

/-- One-shot mode, `run_one_shot` (lines 419-426): builds the single prompt
and passes the CLI-supplied `--max-tokens` and `--temperature` values. -/
def run_one_shot (svc : Service) (fs : List FsNode) (args : Args) :
    Except PyError SingleResult :=
  (build_single_prompt fs args).map fun prompt =>
    let rc := call_claude svc [⟨"user", prompt⟩] args.max_tokens args.temperature
    ⟨rc.1, rc.2, write_output_if_needed args rc.2⟩

/-- Explain mode, `run_explain` (lines 429-432): the call omits the sampling
arguments, so the defaults of `call_claude` (4096 and 0.1) apply. -/
def run_explain (svc : Service) (fs : List FsNode) (args : Args) :
    Except PyError SingleResult :=
  (build_explain_prompt fs (args.explain.getD "")).map fun prompt =>
    let rc := call_claude svc [⟨"user", prompt⟩] 4096 (1 / 10)
    ⟨rc.1, rc.2, write_output_if_needed args rc.2⟩

/-- Single-file fix mode, `run_fix` (lines 435-438); the prompt builder reads
the file itself, so the read is sequenced before the call. -/
def run_fix (svc : Service) (fs : List FsNode) (args : Args) :
    Except PyError SingleResult :=
  ((read_file fs (args.fix.getD "")).map
      (build_fix_prompt (args.fix.getD ""))).map fun prompt =>
    let rc := call_claude svc [⟨"user", prompt⟩] 4096 (1 / 10)
    ⟨rc.1, rc.2, write_output_if_needed args rc.2⟩

/-- Single-file refactor mode, `run_refactor` (lines 441-444). -/
def run_refactor (svc : Service) (fs : List FsNode) (args : Args) :
    Except PyError SingleResult :=
  ((read_file fs (args.refactor.getD "")).map
      (build_refactor_prompt (args.refactor.getD ""))).map fun prompt =>
    let rc := call_claude svc [⟨"user", prompt⟩] 4096 (1 / 10)
    ⟨rc.1, rc.2, write_output_if_needed args rc.2⟩

/-- Analyze-folder mode, `run_analyze_folder` (lines 447-454): passes the
CLI-supplied sampling values. -/
def run_analyze_folder (svc : Service) (tree : List Entry) (args : Args) :
    SingleResult :=
  let prompt := build_folder_analysis_prompt (args.analyze_folder.getD "") tree
  let rc := call_claude svc [⟨"user", prompt⟩] args.max_tokens args.temperature
  ⟨rc.1, rc.2, write_output_if_needed args rc.2⟩

/-- Project-QA mode, `run_project_qa` (lines 457-460): default sampling
values. -/
def run_project_qa (svc : Service) (tree : List Entry) (args : Args) :
    SingleResult :=
  let prompt :=
    build_project_qa_prompt (args.project_qa.getD "") tree (args.question.getD "")
  let rc := call_claude svc [⟨"user", prompt⟩] 4096 (1 / 10)
  ⟨rc.1, rc.2, write_output_if_needed args rc.2⟩

/-- Generate-file mode, `run_generate_file` (lines 463-469): default sampling
values. -/
def run_generate_file (svc : Service) (args : Args) : SingleResult :=
  let prompt :=
    "Generate the requested file. Output ONLY valid file content.\n\n" ++
    "User specification:\n" ++ args.generate_file.getD ""
  let rc := call_claude svc [⟨"user", prompt⟩] 4096 (1 / 10)
  ⟨rc.1, rc.2, write_output_if_needed args rc.2⟩

/-- Diff mode, `run_diff` (lines 472-476): default sampling values. -/
def run_diff (svc : Service) (fs : List FsNode) (args : Args) :
    Except PyError SingleResult :=
  let ab := args.diff.getD ("", "")
  (build_diff_prompt fs ab.1 ab.2).map fun prompt =>
    let rc := call_claude svc [⟨"user", prompt⟩] 4096 (1 / 10)
    ⟨rc.1, rc.2, write_output_if_needed args rc.2⟩

/-- Python `PurePath.with_name` for POSIX paths: replace the final
component.  As in `pathlib`, it raises `ValueError` when the path has an
empty name (for example `.` or `/`) and when the replacement name is itself
invalid (empty, `.`, or containing a separator); the messages are the
`pathlib` ones without the `repr` quoting.  The leading slash of an absolute
path is preserved. -/
def py_with_name (p newName : String) : Except PyError String :=
  if (pathName p).data.isEmpty then
    Except.error (PyError.valueError (p ++ " has an empty name"))
  else if newName.data.isEmpty || '/' ∈ newName.data || newName == "." then
    Except.error (PyError.valueError ("Invalid name " ++ newName))
  else
    let comps := (pathComponents p).filter fun c => !(c.data.isEmpty || c == ".")
    let anchor := if p.data.head? = some '/' then "/" else ""
    Except.ok (anchor ++ String.intercalate "/" (comps.dropLast ++ [newName]))

/-- The state of a batch root as observed by a folder mode: whether the root
path exists, whether it is a directory, and the entries below it in
`rglob` enumeration order (paths relative to the root). -/
structure BatchState where
  rootExists : Bool
  rootIsDir : Bool
  tree : List Entry
deriving DecidableEq, Repr

/-- One file written by a batch mode: its path relative to the derived output
root, and its content. -/
structure OutFile where
  path : List String
  content : String
deriving DecidableEq, Repr

/-- Everything a folder mode does, reified: whether the invalid-target error
was reported (and the function returned at once), the derived output root,
the parent directories created, the requests issued, the files written, and
the processed-file count of the final summary line (`none` when the function
returned before the loop). -/
structure BatchResult where
  errorReported : Bool
  out_root : Option String
  mkdirs : List (List String)
  calls : List ApiCall
  writes : List OutFile
  summary : Option Nat
deriving DecidableEq, Repr

/-- Batch fix mode, `run_fix_folder` (lines 479-505): guard the root, derive
the output root with `with_name` (a `ValueError` there — root named `.` or
`/` — propagates as an uncaught exception, before any call or write), then
for each supported file create the destination parents, build the fix
prompt, call the client with the CLI-supplied sampling values and write the
reply verbatim to the mirrored relative path; finally report the count. -/
def run_fix_folder (svc : Service) (args : Args) (st : BatchState) :
    Except PyError BatchResult :=
  let root := args.fix_folder.getD ""
  if !st.rootExists || !st.rootIsDir then
    Except.ok ⟨true, none, [], [], [], none⟩
  else
    match py_with_name root (pathName root ++ "_fixed") with
    | Except.error e => Except.error e
    | Except.ok out_root =>
      let files := iter_code_files st.tree
      let step := fun (e : Entry) =>
        call_claude svc
          [⟨"user", build_fix_prompt (renderPath root e.path) e.content⟩]
          args.max_tokens args.temperature
      Except.ok
        ⟨false,
         some out_root,
         files.map fun e => e.path.dropLast,
         files.map fun e => (step e).1,
         files.map fun e => ⟨e.path, (step e).2⟩,
         some files.length⟩

/-- Batch refactor mode, `run_refactor_folder` (lines 508-538); identical to
batch fix mode except for the prompt builder and the output-root suffix. -/
def run_refactor_folder (svc : Service) (args : Args) (st : BatchState) :
    Except PyError BatchResult :=
  let root := args.refactor_folder.getD ""
  if !st.rootExists || !st.rootIsDir then
    Except.ok ⟨true, none, [], [], [], none⟩
  else
    match py_with_name root (pathName root ++ "_refactored") with
    | Except.error e => Except.error e
    | Except.ok out_root =>
      let files := iter_code_files st.tree
      let step := fun (e : Entry) =>
        call_claude svc
          [⟨"user", build_refactor_prompt (renderPath root e.path) e.content⟩]
          args.max_tokens args.temperature
      Except.ok
        ⟨false,
         some out_root,
         files.map fun e => e.path.dropLast,
         files.map fun e => (step e).1,
         files.map fun e => ⟨e.path, (step e).2⟩,
         some files.length⟩

/-- Batch rewrite mode, `run_rewrite_folder` (lines 541-572); identical to
batch fix mode except for the prompt builder and the output-root suffix. -/
def run_rewrite_folder (svc : Service) (args : Args) (st : BatchState) :
    Except PyError BatchResult :=
  let root := args.rewrite_folder.getD ""
  if !st.rootExists || !st.rootIsDir then
    Except.ok ⟨true, none, [], [], [], none⟩
  else
    match py_with_name root (pathName root ++ "_rewritten") with
    | Except.error e => Except.error e
    | Except.ok out_root =>
      let files := iter_code_files st.tree
      let step := fun (e : Entry) =>
        call_claude svc
          [⟨"user", build_rewrite_prompt (renderPath root e.path) e.content⟩]
          args.max_tokens args.temperature
      Except.ok
        ⟨false,
         some out_root,
         files.map fun e => e.path.dropLast,
         files.map fun e => (step e).1,
         files.map fun e => ⟨e.path, (step e).2⟩,
         some files.length⟩

/-- The mutually exclusive execution modes selected by `main`. -/
inductive Mode where
  | explainMode
  | fixMode
  | refactorMode
  | analyzeFolderMode
  | projectQAMode
  | generateFileMode
  | diffMode
  | fixFolderMode
  | refactorFolderMode
  | rewriteFolderMode
  | oneShotMode
deriving DecidableEq, Repr

/-- The mode dispatch of `main` (lines 633-659): the first truthy flag wins,
in source order; `--project-qa` fires only together with a truthy
`--question`; everything falls through to one-shot mode. -/
def mainDispatch (args : Args) : Mode :=
  if truthy args.explain then Mode.explainMode
  else if truthy args.fix then Mode.fixMode
  else if truthy args.refactor then Mode.refactorMode
  else if truthy args.analyze_folder then Mode.analyzeFolderMode
  else if truthy args.project_qa && truthy args.question then Mode.projectQAMode
  else if truthy args.generate_file then Mode.generateFileMode
  else if args.diff.isSome then Mode.diffMode
  else if truthy args.fix_folder then Mode.fixFolderMode
  else if truthy args.refactor_folder then Mode.refactorFolderMode
  else if truthy args.rewrite_folder then Mode.rewriteFolderMode
  else Mode.oneShotMode

/-! Statement helpers used to formalise the spec claims. -/

/-- Statement helper: `post` is a suffix of `s`, at the character level. -/
def strEndsWith (s post : String) : Prop :=
  ∃ l, s.data = l ++ post.data

/-- Statement helper: `pre` is a prefix of `s`, at the character level. -/
def strStartsWith (s pre : String) : Prop :=
  ∃ r, s.data = pre.data ++ r

/-- Statement helper: `sub` occurs contiguously inside `s`. -/
def strContains (s sub : String) : Prop :=
  ∃ l r, s.data = l ++ sub.data ++ r

/-- The extension table implicit in the conditional chain of
`detect_language`, each extension paired with the tag its branch returns. -/
def extLangTable : List (String × String) :=
  [(".py", "python"), (".pyw", "python"),
   (".c", "cpp"), (".cpp", "cpp"), (".cc", "cpp"), (".cxx", "cpp"),
   (".h", "cpp"), (".hpp", "cpp"),
   (".java", "java"),
   (".kt", "kotlin"), (".kts", "kotlin"),
   (".js", "javascript"), (".jsx", "javascript"),
   (".ts", "typescript"), (".tsx", "typescript"),
   (".cs", "csharp"),
   (".go", "go"),
   (".rs", "rust"),
   (".php", "php"),
   (".html", "html"), (".htm", "html"),
   (".css", "css"),
   (".json", "json"),
   (".yaml", "yaml"), (".yml", "yaml"),
   (".xml", "xml")]

/-- The fixed tag set of the classifier, fallback included. -/
def langTags : List String :=
  ["python", "cpp", "java", "kotlin", "javascript", "typescript", "csharp",
   "go", "rust", "php", "html", "css", "json", "yaml", "xml", "text"]

lemma detect_language_of_ext_mem :
    ∀ p ∈ extLangTable, detect_language_of_ext p.1 = p.2 := by decide

lemma extLangTable_tag_mem : ∀ p ∈ extLangTable, p.2 ∈ langTags := by decide

lemma detect_language_of_ext_fallback (ext : String)
    (h : ext ∉ extLangTable.map Prod.fst) : detect_language_of_ext ext = "text" := by
  simp only [extLangTable, List.map_cons, List.map_nil, List.mem_cons,
    List.not_mem_nil, or_false, not_or] at h
  obtain ⟨h1, h2, h3, h4, h5, h6, h7, h8, h9, h10, h11, h12, h13, h14, h15,
    h16, h17, h18, h19, h20, h21, h22, h23, h24, h25, h26⟩ := h
  simp [detect_language_of_ext, h1, h2, h3, h4, h5, h6, h7, h8, h9, h10, h11,
    h12, h13, h14, h15, h16, h17, h18, h19, h20, h21, h22, h23, h24, h25, h26]

/-- C4: the language classifier is pure and total (it is a Lean function into
`String`); every path whose lower-cased extension appears in the static table
is mapped to the tag of its table row, every other path to the fallback tag
`text`, and the result always lies in the fixed tag set. -/
theorem C4_classifier_total_table (path : String) :
    detect_language path ∈ langTags
    ∧ (∀ e t, (e, t) ∈ extLangTable → pyLower (pySuffix (pathName path)) = e →
        detect_language path = t)
    ∧ (pyLower (pySuffix (pathName path)) ∉ extLangTable.map Prod.fst →
        detect_language path = "text") := by
  refine ⟨?_, ?_, ?_⟩
  · by_cases hm : pyLower (pySuffix (pathName path)) ∈ extLangTable.map Prod.fst
    · obtain ⟨p, hp, hpe⟩ := List.mem_map.mp hm
      have heq := detect_language_of_ext_mem p hp
      have htag := extLangTable_tag_mem p hp
      show detect_language_of_ext _ ∈ langTags
      rw [← hpe, heq]
      exact htag
    · show detect_language_of_ext _ ∈ langTags
      rw [detect_language_of_ext_fallback _ hm]
      decide
  · intro e t ht he
    show detect_language_of_ext _ = t
    rw [he]
    exact detect_language_of_ext_mem (e, t) ht
  · intro h
    exact detect_language_of_ext_fallback _ h

/-- Witness for C4 at concrete inputs: an upper-cased supported extension and
an extension-free path. -/
theorem C4_classifier_witness :
    detect_language "src/Main.KT" = "kotlin" ∧ detect_language "README" = "text" := by
  constructor
  · exact (C4_classifier_total_table "src/Main.KT").2.1 ".kt" "kotlin"
      (by decide) (by decide)
  · exact (C4_classifier_total_table "README").2.2 (by decide)

/-- C2: the completion client is fail-soft.  It is a total function into
`String` (no exception reaches the caller); any service failure yields the
error-marker string with the failure description appended, a reply with no
text segment yields the marker with the `IndexError` description, and a
successful reply yields its first text segment. -/
theorem C2_call_claude_fail_soft (svc : Service) (messages : List Message)
    (max_tokens : Nat) (temperature : Rat) :
    (call_claude svc messages max_tokens temperature).1 =
      ⟨MODEL_NAME, max_tokens, temperature, messages⟩
    ∧ (∀ e, svc ⟨MODEL_NAME, max_tokens, temperature, messages⟩ = Except.error e →
        (call_claude svc messages max_tokens temperature).2 = "[API ERROR] " ++ e
        ∧ strStartsWith (call_claude svc messages max_tokens temperature).2
            "[API ERROR] ")
    ∧ (svc ⟨MODEL_NAME, max_tokens, temperature, messages⟩ = Except.ok [] →
        (call_claude svc messages max_tokens temperature).2 =
          "[API ERROR] list index out of range")
    ∧ (∀ b bs,
        svc ⟨MODEL_NAME, max_tokens, temperature, messages⟩ = Except.ok (b :: bs) →
        (call_claude svc messages max_tokens temperature).2 = b) := by
  refine ⟨rfl, ?_, ?_, ?_⟩
  · intro e he
    constructor
    · simp [call_claude, he]
    · refine ⟨e.data, ?_⟩
      simp [call_claude, he]
  · intro h
    simp [call_claude, h]
  · intro b bs h
    simp [call_claude, h]

/-- Witness for C2: a service that always fails with a network-style error;
the client returns the sentinel string instead of propagating. -/
theorem C2_call_claude_witness :
    (call_claude (fun _ => Except.error "connection error") [] 4096 (1 / 10)).2 =
      "[API ERROR] connection error" := by
  have h := (C2_call_claude_fail_soft (fun _ => Except.error "connection error")
    [] 4096 (1 / 10)).2.1 "connection error" rfl
  rw [h.1]
  decide

/-- C8 counterexample: a path naming an existing directory.  The existence
check passes, so no NotFound error is raised, but the subsequent read raises
`IsADirectoryError` instead of returning file contents — contradicting the
claim that every existing path yields its contents. -/
theorem C8_read_file_counterexample :
    py_exists [⟨"build", false, ""⟩] "build" = true
    ∧ read_file [⟨"build", false, ""⟩] "build" =
        Except.error (PyError.isADirectory "build") := by
  constructor <;> rfl

/-- C8 amended: `read_file` raises NotFound if and only if the path does not
exist (the check is explicit, before the read); when the path exists and is a
regular file it returns the full decoded contents; when the path exists but
is not a regular file the read fails with `IsADirectoryError`, not with
NotFound. -/
theorem C8_read_file_amended (fs : List FsNode) (path : String) :
    ((∃ m, read_file fs path = Except.error (PyError.notFound m)) ↔
      py_exists fs path = false)
    ∧ (∀ n, fs.find? (fun m => m.path == path) = some n → n.isFile = true →
        read_file fs path = Except.ok n.content)
    ∧ (∀ n, fs.find? (fun m => m.path == path) = some n → n.isFile = false →
        read_file fs path = Except.error (PyError.isADirectory path)) := by
  cases hf : fs.find? fun m => m.path == path with
  | none =>
    have hex : py_exists fs path = false := by simp [py_exists, hf]
    refine ⟨⟨fun _ => hex, fun _ => ⟨"File not found: " ++ path, ?_⟩⟩, ?_, ?_⟩
    · simp [read_file, hex]
    · intro n hn
      cases hn
    · intro n hn
      cases hn
  | some n0 =>
    have hex : py_exists fs path = true := by simp [py_exists, hf]
    have hrt : read_file fs path =
        if n0.isFile then Except.ok n0.content
        else Except.error (PyError.isADirectory path) := by
      simp [read_file, hex, py_read_text, hf]
    refine ⟨⟨?_, ?_⟩, ?_, ?_⟩
    · rintro ⟨m, hm⟩
      rw [hrt] at hm
      by_cases hb : n0.isFile <;> simp [hb] at hm
    · intro h
      rw [hex] at h
      cases h
    · intro n hn hfile
      cases hn
      simp [hrt, hfile]
    · intro n hn hfile
      cases hn
      simp [hrt, hfile]

/-- Witness for C8 at a concrete one-file filesystem. -/
theorem C8_read_file_witness :
    read_file [⟨"a.py", true, "x = 1"⟩] "a.py" = Except.ok "x = 1" := by
  exact (C8_read_file_amended [⟨"a.py", true, "x = 1"⟩] "a.py").2.1
    ⟨"a.py", true, "x = 1"⟩ rfl rfl

/-- Arguments with every flag absent and the argparse defaults for the
sampling values. -/
def defaultArgs : Args :=
  ⟨none, none, none, none, none, none, none, none, none, none, none, none,
   none, none, 4096, 1 / 10⟩

set_option maxHeartbeats 1000000 in
/-- C10: when `--project-qa` is truthy but `--question` is not, the dispatch
of `main` never selects project-QA mode; it falls through, and when no other
mode flag is truthy either, the invocation runs in one-shot mode. -/
theorem C10_project_qa_requires_question (args : Args)
    (h1 : truthy args.project_qa = true) (h2 : truthy args.question = false) :
    mainDispatch args ≠ Mode.projectQAMode
    ∧ (truthy args.explain = false → truthy args.fix = false →
       truthy args.refactor = false → truthy args.analyze_folder = false →
       truthy args.generate_file = false → args.diff = none →
       truthy args.fix_folder = false → truthy args.refactor_folder = false →
       truthy args.rewrite_folder = false →
       mainDispatch args = Mode.oneShotMode) := by
  constructor
  · intro hcontra
    unfold mainDispatch at hcontra
    rw [h2, Bool.and_false] at hcontra
    split_ifs at hcontra with a1 a2 a3 a4 a5 a6 a7 a8 a9 a10
    all_goals try (cases hcontra)
    exact a5
  · intro h3 h4 h5 h6 h7 h8 h9 h10 h11
    unfold mainDispatch
    rw [h3, h4, h5, h6, h2, Bool.and_false, h7, h8, h9, h10, h11]
    simp

/-- Witness for C10: `--project-qa` supplied alone falls through to one-shot
mode. -/
theorem C10_project_qa_witness :
    mainDispatch { defaultArgs with project_qa := some "proj" } =
      Mode.oneShotMode := by
  exact (C10_project_qa_requires_question
    { defaultArgs with project_qa := some "proj" } rfl rfl).2
    rfl rfl rfl rfl rfl rfl rfl rfl rfl

/-- Concrete filesystem for exercising explain mode. -/
def fsExplain : List FsNode := [⟨"f.py", true, "x = 1"⟩]

/-- Concrete arguments: explain mode with non-default sampling flags. -/
def argsExplain : Args :=
  { defaultArgs with explain := some "f.py", max_tokens := 123,
                     temperature := 9 / 10 }

/-- C5 counterexample: in explain mode with `--max-tokens 123` and
`--temperature 0.9`, the request records the hardcoded defaults 4096 and 0.1,
not the CLI-supplied values, so the flags do not override the sampling
defaults in every mode. -/
theorem C5_sampling_counterexample :
    ((run_explain (fun _ => Except.ok ["OK"]) fsExplain argsExplain).map
        (fun r => (r.call.max_tokens, r.call.temperature)) =
      Except.ok ((4096 : Nat), (1 / 10 : Rat)))
    ∧ argsExplain.max_tokens = 123
    ∧ argsExplain.temperature = 9 / 10
    ∧ ((4096 : Nat), (1 / 10 : Rat)) ≠ ((123 : Nat), (9 / 10 : Rat)) := by
  refine ⟨?_, rfl, rfl, by decide⟩
  rfl

/-- C5 amended: the CLI-supplied `--max-tokens` and `--temperature` values
are passed to the completion service by one-shot, analyze-folder and the
three batch folder modes; explain, single-file fix, single-file refactor,
project-QA, generate-file and diff modes always pass the call-site defaults
4096 and 0.1, ignoring the flags. -/
theorem C5_sampling_amended (svc : Service) (fs : List FsNode)
    (tree : List Entry) (args : Args) (st : BatchState) :
    ((run_one_shot svc fs args).map
        (fun r => (r.call.max_tokens, r.call.temperature)) =
      (run_one_shot svc fs args).map
        (fun _ => (args.max_tokens, args.temperature)))
    ∧ ((run_explain svc fs args).map
        (fun r => (r.call.max_tokens, r.call.temperature)) =
      (run_explain svc fs args).map (fun _ => ((4096 : Nat), (1 / 10 : Rat))))
    ∧ ((run_fix svc fs args).map
        (fun r => (r.call.max_tokens, r.call.temperature)) =
      (run_fix svc fs args).map (fun _ => ((4096 : Nat), (1 / 10 : Rat))))
    ∧ ((run_refactor svc fs args).map
        (fun r => (r.call.max_tokens, r.call.temperature)) =
      (run_refactor svc fs args).map (fun _ => ((4096 : Nat), (1 / 10 : Rat))))
    ∧ ((run_analyze_folder svc tree args).call.max_tokens = args.max_tokens
        ∧ (run_analyze_folder svc tree args).call.temperature = args.temperature)
    ∧ ((run_project_qa svc tree args).call.max_tokens = 4096
        ∧ (run_project_qa svc tree args).call.temperature = 1 / 10)
    ∧ ((run_generate_file svc args).call.max_tokens = 4096
        ∧ (run_generate_file svc args).call.temperature = 1 / 10)
    ∧ ((run_diff svc fs args).map
        (fun r => (r.call.max_tokens, r.call.temperature)) =
      (run_diff svc fs args).map (fun _ => ((4096 : Nat), (1 / 10 : Rat))))
    ∧ ((run_fix_folder svc args st).map
        (fun res => res.calls.map fun c => (c.max_tokens, c.temperature)) =
      (run_fix_folder svc args st).map
        (fun res => res.calls.map fun _ => (args.max_tokens, args.temperature)))
    ∧ ((run_refactor_folder svc args st).map
        (fun res => res.calls.map fun c => (c.max_tokens, c.temperature)) =
      (run_refactor_folder svc args st).map
        (fun res => res.calls.map fun _ => (args.max_tokens, args.temperature)))
    ∧ ((run_rewrite_folder svc args st).map
        (fun res => res.calls.map fun c => (c.max_tokens, c.temperature)) =
      (run_rewrite_folder svc args st).map
        (fun res => res.calls.map fun _ =>
          (args.max_tokens, args.temperature))) := by
  refine ⟨?_, ?_, ?_, ?_, ⟨rfl, rfl⟩, ⟨rfl, rfl⟩, ⟨rfl, rfl⟩, ?_, ?_, ?_, ?_⟩
  · cases h : build_single_prompt fs args <;>
      simp [run_one_shot, h, Except.map, call_claude]
  · cases h : build_explain_prompt fs (args.explain.getD "") <;>
      simp [run_explain, h, Except.map, call_claude]
  · cases h : read_file fs (args.fix.getD "") <;>
      simp [run_fix, h, Except.map, call_claude]
  · cases h : read_file fs (args.refactor.getD "") <;>
      simp [run_refactor, h, Except.map, call_claude]
  · cases h : build_diff_prompt fs (args.diff.getD ("", "")).1
        (args.diff.getD ("", "")).2 <;>
      simp [run_diff, h, Except.map, call_claude]
  · by_cases hg : (!st.rootExists || !st.rootIsDir) = true
    · simp [run_fix_folder, hg, Except.map]
    · cases hw : py_with_name (args.fix_folder.getD "")
          (pathName (args.fix_folder.getD "") ++ "_fixed") <;>
        simp [run_fix_folder, hg, hw, Except.map, call_claude, List.map_map,
          Function.comp]
  · by_cases hg : (!st.rootExists || !st.rootIsDir) = true
    · simp [run_refactor_folder, hg, Except.map]
    · cases hw : py_with_name (args.refactor_folder.getD "")
          (pathName (args.refactor_folder.getD "") ++ "_refactored") <;>
        simp [run_refactor_folder, hg, hw, Except.map, call_claude,
          List.map_map, Function.comp]
  · by_cases hg : (!st.rootExists || !st.rootIsDir) = true
    · simp [run_rewrite_folder, hg, Except.map]
    · cases hw : py_with_name (args.rewrite_folder.getD "")
          (pathName (args.rewrite_folder.getD "") ++ "_rewritten") <;>
        simp [run_rewrite_folder, hg, hw, Except.map, call_claude,
          List.map_map, Function.comp]

lemma run_fix_folder_ok (svc : Service) (args : Args) (tree : List Entry)
    (out_root : String)
    (hw : py_with_name (args.fix_folder.getD "")
        (pathName (args.fix_folder.getD "") ++ "_fixed") = Except.ok out_root) :
    run_fix_folder svc args ⟨true, true, tree⟩ =
      Except.ok
        ⟨false, some out_root,
         (iter_code_files tree).map (fun e => e.path.dropLast),
         (iter_code_files tree).map (fun e =>
           (call_claude svc
             [⟨"user", build_fix_prompt
                 (renderPath (args.fix_folder.getD "") e.path) e.content⟩]
             args.max_tokens args.temperature).1),
         (iter_code_files tree).map (fun e =>
           ⟨e.path,
            (call_claude svc
              [⟨"user", build_fix_prompt
                  (renderPath (args.fix_folder.getD "") e.path) e.content⟩]
              args.max_tokens args.temperature).2⟩),
         some (iter_code_files tree).length⟩ := by
  simp [run_fix_folder, hw]

lemma run_fix_folder_err (svc : Service) (args : Args) (tree : List Entry)
    (e : PyError)
    (hw : py_with_name (args.fix_folder.getD "")
        (pathName (args.fix_folder.getD "") ++ "_fixed") = Except.error e) :
    run_fix_folder svc args ⟨true, true, tree⟩ = Except.error e := by
  simp [run_fix_folder, hw]

lemma run_refactor_folder_ok (svc : Service) (args : Args) (tree : List Entry)
    (out_root : String)
    (hw : py_with_name (args.refactor_folder.getD "")
        (pathName (args.refactor_folder.getD "") ++ "_refactored") =
      Except.ok out_root) :
    run_refactor_folder svc args ⟨true, true, tree⟩ =
      Except.ok
        ⟨false, some out_root,
         (iter_code_files tree).map (fun e => e.path.dropLast),
         (iter_code_files tree).map (fun e =>
           (call_claude svc
             [⟨"user", build_refactor_prompt
                 (renderPath (args.refactor_folder.getD "") e.path) e.content⟩]
             args.max_tokens args.temperature).1),
         (iter_code_files tree).map (fun e =>
           ⟨e.path,
            (call_claude svc
              [⟨"user", build_refactor_prompt
                  (renderPath (args.refactor_folder.getD "") e.path) e.content⟩]
              args.max_tokens args.temperature).2⟩),
         some (iter_code_files tree).length⟩ := by
  simp [run_refactor_folder, hw]

lemma run_refactor_folder_err (svc : Service) (args : Args) (tree : List Entry)
    (e : PyError)
    (hw : py_with_name (args.refactor_folder.getD "")
        (pathName (args.refactor_folder.getD "") ++ "_refactored") =
      Except.error e) :
    run_refactor_folder svc args ⟨true, true, tree⟩ = Except.error e := by
  simp [run_refactor_folder, hw]

lemma run_rewrite_folder_ok (svc : Service) (args : Args) (tree : List Entry)
    (out_root : String)
    (hw : py_with_name (args.rewrite_folder.getD "")
        (pathName (args.rewrite_folder.getD "") ++ "_rewritten") =
      Except.ok out_root) :
    run_rewrite_folder svc args ⟨true, true, tree⟩ =
      Except.ok
        ⟨false, some out_root,
         (iter_code_files tree).map (fun e => e.path.dropLast),
         (iter_code_files tree).map (fun e =>
           (call_claude svc
             [⟨"user", build_rewrite_prompt
                 (renderPath (args.rewrite_folder.getD "") e.path) e.content⟩]
             args.max_tokens args.temperature).1),
         (iter_code_files tree).map (fun e =>
           ⟨e.path,
            (call_claude svc
              [⟨"user", build_rewrite_prompt
                  (renderPath (args.rewrite_folder.getD "") e.path) e.content⟩]
              args.max_tokens args.temperature).2⟩),
         some (iter_code_files tree).length⟩ := by
  simp [run_rewrite_folder, hw]

lemma run_rewrite_folder_err (svc : Service) (args : Args) (tree : List Entry)
    (e : PyError)
    (hw : py_with_name (args.rewrite_folder.getD "")
        (pathName (args.rewrite_folder.getD "") ++ "_rewritten") =
      Except.error e) :
    run_rewrite_folder svc args ⟨true, true, tree⟩ = Except.error e := by
  simp [run_rewrite_folder, hw]

/-- Statement helper for C1: the written output files mirror the supported
files of the input tree — every supported input file has exactly one write at
its own relative path, every write corresponds to a supported input file, and
every written path carries a supported extension. -/
def mirrorsInput (tree : List Entry) (writes : List OutFile) : Prop :=
  (∀ e ∈ tree, isSupportedEntry e = true →
    (writes.map OutFile.path).count e.path = 1)
  ∧ (∀ w ∈ writes, ∃ e ∈ tree, isSupportedEntry e = true ∧ w.path = e.path)
  ∧ (∀ w ∈ writes,
      SUPPORTED_EXTS.contains (pyLower (pySuffix (w.path.getLastD ""))) = true)

lemma count_eq_one_of_nodup_mem {α : Type} [BEq α] [LawfulBEq α]
    {l : List α} (hnd : l.Nodup) {a : α} (ha : a ∈ l) : l.count a = 1 := by
  induction l with
  | nil => cases ha
  | cons x xs ih =>
    obtain ⟨hx, hxs⟩ := List.nodup_cons.mp hnd
    rcases List.mem_cons.mp ha with rfl | hmem
    · rw [List.count_cons_self, List.count_eq_zero.mpr hx]
    · have hne : a ≠ x := fun hEq => hx (hEq ▸ hmem)
      rw [List.count_cons_of_ne hne, ih hxs hmem]

lemma mirrors_of_map (tree : List Entry) (g : Entry → String)
    (hnd : (tree.map Entry.path).Nodup) :
    mirrorsInput tree ((iter_code_files tree).map fun e => ⟨e.path, g e⟩) := by
  have hpaths :
      (((iter_code_files tree).map fun e => (⟨e.path, g e⟩ : OutFile)).map
        OutFile.path) = (iter_code_files tree).map Entry.path := by
    simp [List.map_map, Function.comp]
  refine ⟨?_, ?_, ?_⟩
  · intro e he hsup
    rw [hpaths]
    have hmem : e ∈ iter_code_files tree := List.mem_filter.mpr ⟨he, hsup⟩
    have hnd2 : ((iter_code_files tree).map Entry.path).Nodup :=
      ((List.filter_sublist tree).map Entry.path).nodup hnd
    exact count_eq_one_of_nodup_mem hnd2 (List.mem_map_of_mem Entry.path hmem)
  · intro w hw
    obtain ⟨e, he, rfl⟩ := List.mem_map.mp hw
    obtain ⟨het, hes⟩ := List.mem_filter.mp he
    exact ⟨e, het, hes, rfl⟩
  · intro w hw
    obtain ⟨e, he, rfl⟩ := List.mem_map.mp hw
    obtain ⟨het, hes⟩ := List.mem_filter.mp he
    have h2 := (Bool.and_eq_true _ _).mp hes
    simpa [Entry.name] using h2.2

/-- Concrete input tree: a supported file, an unsupported file, a directory,
and a supported file inside the directory (with an upper-cased extension). -/
def treeW : List Entry :=
  [⟨["a.py"], true, "x"⟩, ⟨["notes.txt"], true, "n"⟩, ⟨["sub"], false, ""⟩,
   ⟨["sub", "b.JS"], true, "y"⟩]

/-- C1 counterexample: the root `.` exists and is a directory, so it passes
the guard, yet the batch run aborts with pathlib's uncaught `ValueError`
while deriving the output root — before any call or write — even though the
tree holds supported files, so they do not get mirrored output files. -/
theorem C1_batch_counterexample :
    run_fix_folder (fun _ => Except.ok ["OK"])
      { defaultArgs with fix_folder := some "." } ⟨true, true, treeW⟩ =
      Except.error (PyError.valueError ". has an empty name")
    ∧ (iter_code_files treeW).length = 2 := by
  constructor <;> rfl

/-- C1 amended: on a valid root with distinct entry paths, whenever a batch
run returns (that is, deriving the output root from the root's name does not
raise `ValueError`, as it does for roots named `.` or `/`), each of the three
batch modes has written exactly one output file at the same relative path for
every supported input file, every write stems from such a file, and no
written path has an unsupported extension. -/
theorem C1_batch_output_mirrors (svc : Service) (args : Args)
    (tree : List Entry) (hnd : (tree.map Entry.path).Nodup) :
    (∀ res, run_fix_folder svc args ⟨true, true, tree⟩ = Except.ok res →
      mirrorsInput tree res.writes)
    ∧ (∀ res, run_refactor_folder svc args ⟨true, true, tree⟩ = Except.ok res →
      mirrorsInput tree res.writes)
    ∧ (∀ res, run_rewrite_folder svc args ⟨true, true, tree⟩ = Except.ok res →
      mirrorsInput tree res.writes) := by
  refine ⟨?_, ?_, ?_⟩
  · intro res hres
    cases hw : py_with_name (args.fix_folder.getD "")
        (pathName (args.fix_folder.getD "") ++ "_fixed") with
    | error e =>
      rw [run_fix_folder_err svc args tree e hw] at hres
      cases hres
    | ok out_root =>
      rw [run_fix_folder_ok svc args tree out_root hw] at hres
      injection hres with h
      subst h
      exact mirrors_of_map tree _ hnd
  · intro res hres
    cases hw : py_with_name (args.refactor_folder.getD "")
        (pathName (args.refactor_folder.getD "") ++ "_refactored") with
    | error e =>
      rw [run_refactor_folder_err svc args tree e hw] at hres
      cases hres
    | ok out_root =>
      rw [run_refactor_folder_ok svc args tree out_root hw] at hres
      injection hres with h
      subst h
      exact mirrors_of_map tree _ hnd
  · intro res hres
    cases hw : py_with_name (args.rewrite_folder.getD "")
        (pathName (args.rewrite_folder.getD "") ++ "_rewritten") with
    | error e =>
      rw [run_rewrite_folder_err svc args tree e hw] at hres
      cases hres
    | ok out_root =>
      rw [run_rewrite_folder_ok svc args tree out_root hw] at hres
      injection hres with h
      subst h
      exact mirrors_of_map tree _ hnd

/-- Concrete batch arguments with a normally named root, for which deriving
the output root succeeds. -/
def argsFixProj : Args := { defaultArgs with fix_folder := some "proj" }

/-- Witness for C1: on the concrete tree with root `proj`, the run returns
and the supported file `a.py` gets exactly one mirrored write. -/
theorem C1_batch_witness :
    (run_fix_folder (fun _ => Except.ok ["OK"]) argsFixProj
        ⟨true, true, treeW⟩).map
      (fun res => (res.writes.map OutFile.path).count ["a.py"]) =
      Except.ok 1 := by
  obtain ⟨res, hres⟩ :
      ∃ res, run_fix_folder (fun _ => Except.ok ["OK"]) argsFixProj
        ⟨true, true, treeW⟩ = Except.ok res := ⟨_, rfl⟩
  have h := (C1_batch_output_mirrors (fun _ => Except.ok ["OK"]) argsFixProj
    treeW (by decide)).1 res hres
  have hc := h.1 ⟨["a.py"], true, "x"⟩ (by decide) (by decide)
  rw [hres]
  simpa [Except.map] using hc

/-- A completion service that fails on every call, with a failure description
chosen per request. -/
def alwaysFail (f : ApiCall → String) : Service :=
  fun req => Except.error (f req)

/-- Concrete one-file input tree for the failing-service scenario. -/
def treeF : List Entry := [⟨["m.go"], true, "package m"⟩]

/-- C3 counterexample: with an always-failing client and one supported file,
the batch run on a root named `.` aborts with pathlib's uncaught `ValueError`
before any service call — zero files are written and no summary is printed,
so N supported files do not yield N output files on every batch run. -/
theorem C3_batch_counterexample :
    run_fix_folder (alwaysFail fun _ => "down")
      { defaultArgs with fix_folder := some "." } ⟨true, true, treeF⟩ =
      Except.error (PyError.valueError ". has an empty name")
    ∧ (iter_code_files treeF).length = 1 := by
  constructor <;> rfl

/-- C3 amended: when the completion client fails on every call, every batch
run that returns (that is, deriving the output root does not raise the
root-name `ValueError`, which would be thrown before any service call) has
written one output per supported file, each written file's content is exactly
the error-sentinel string for its request, the summary reports the full
count, and the invalid-target error path is never taken — no service failure
ever aborts the run early. -/
theorem C3_batch_all_failures (f : ApiCall → String) (args : Args)
    (tree : List Entry) :
    (∀ res, run_fix_folder (alwaysFail f) args ⟨true, true, tree⟩ =
        Except.ok res →
      res.errorReported = false
      ∧ res.writes.length = (iter_code_files tree).length
      ∧ res.summary = some (iter_code_files tree).length
      ∧ ∀ w ∈ res.writes, ∃ req, w.content = "[API ERROR] " ++ f req)
    ∧ (∀ res, run_refactor_folder (alwaysFail f) args ⟨true, true, tree⟩ =
        Except.ok res →
      res.errorReported = false
      ∧ res.writes.length = (iter_code_files tree).length
      ∧ res.summary = some (iter_code_files tree).length
      ∧ ∀ w ∈ res.writes, ∃ req, w.content = "[API ERROR] " ++ f req)
    ∧ (∀ res, run_rewrite_folder (alwaysFail f) args ⟨true, true, tree⟩ =
        Except.ok res →
      res.errorReported = false
      ∧ res.writes.length = (iter_code_files tree).length
      ∧ res.summary = some (iter_code_files tree).length
      ∧ ∀ w ∈ res.writes, ∃ req, w.content = "[API ERROR] " ++ f req) := by
  refine ⟨?_, ?_, ?_⟩
  · intro res hres
    cases hw : py_with_name (args.fix_folder.getD "")
        (pathName (args.fix_folder.getD "") ++ "_fixed") with
    | error e =>
      rw [run_fix_folder_err (alwaysFail f) args tree e hw] at hres
      cases hres
    | ok out_root =>
      rw [run_fix_folder_ok (alwaysFail f) args tree out_root hw] at hres
      injection hres with h
      subst h
      refine ⟨rfl, by simp, rfl, ?_⟩
      intro w hw2
      obtain ⟨e2, he2, rfl⟩ := List.mem_map.mp hw2
      exact ⟨_, rfl⟩
  · intro res hres
    cases hw : py_with_name (args.refactor_folder.getD "")
        (pathName (args.refactor_folder.getD "") ++ "_refactored") with
    | error e =>
      rw [run_refactor_folder_err (alwaysFail f) args tree e hw] at hres
      cases hres
    | ok out_root =>
      rw [run_refactor_folder_ok (alwaysFail f) args tree out_root hw] at hres
      injection hres with h
      subst h
      refine ⟨rfl, by simp, rfl, ?_⟩
      intro w hw2
      obtain ⟨e2, he2, rfl⟩ := List.mem_map.mp hw2
      exact ⟨_, rfl⟩
  · intro res hres
    cases hw : py_with_name (args.rewrite_folder.getD "")
        (pathName (args.rewrite_folder.getD "") ++ "_rewritten") with
    | error e =>
      rw [run_rewrite_folder_err (alwaysFail f) args tree e hw] at hres
      cases hres
    | ok out_root =>
      rw [run_rewrite_folder_ok (alwaysFail f) args tree out_root hw] at hres
      injection hres with h
      subst h
      refine ⟨rfl, by simp, rfl, ?_⟩
      intro w hw2
      obtain ⟨e2, he2, rfl⟩ := List.mem_map.mp hw2
      exact ⟨_, rfl⟩

/-- Witness for C3: with a constantly failing service and root `proj`, the
run returns, the one supported file is written and reported. -/
theorem C3_batch_witness :
    (run_fix_folder (alwaysFail fun _ => "down") argsFixProj
        ⟨true, true, treeF⟩).map
      (fun res => (res.summary, res.writes.length)) =
      Except.ok (some 1, 1) := by
  obtain ⟨res, hres⟩ :
      ∃ res, run_fix_folder (alwaysFail fun _ => "down") argsFixProj
        ⟨true, true, treeF⟩ = Except.ok res := ⟨_, rfl⟩
  have h := (C3_batch_all_failures (fun _ => "down") argsFixProj treeF).1
    res hres
  have h1 : res.summary = some 1 := (h.2.2.1).trans (by decide)
  have h2 : res.writes.length = 1 := (h.2.1).trans (by decide)
  rw [hres]
  simp [Except.map, h1, h2]

/-- C9: when the batch root does not exist or is not a directory, each of the
three folder modes reports the error and returns normally with no side
effect: no output root is derived, no directory is created, no completion
call is made, no file is written, and no summary is printed. -/
theorem C9_invalid_root_no_side_effects (svc : Service) (args : Args)
    (st : BatchState) (h : st.rootExists = false ∨ st.rootIsDir = false) :
    run_fix_folder svc args st = Except.ok ⟨true, none, [], [], [], none⟩
    ∧ run_refactor_folder svc args st = Except.ok ⟨true, none, [], [], [], none⟩
    ∧ run_rewrite_folder svc args st =
        Except.ok ⟨true, none, [], [], [], none⟩ := by
  have hg : (!st.rootExists || !st.rootIsDir) = true := by
    rcases h with h | h <;> simp [h]
  refine ⟨?_, ?_, ?_⟩ <;>
    simp [run_fix_folder, run_refactor_folder, run_rewrite_folder, hg]

/-- Witness for C9: a missing root produces the error result. -/
theorem C9_invalid_root_witness :
    run_fix_folder (fun _ => Except.ok []) defaultArgs ⟨false, true, []⟩ =
      Except.ok ⟨true, none, [], [], [], none⟩ := by
  exact (C9_invalid_root_no_side_effects (fun _ => Except.ok []) defaultArgs
    ⟨false, true, []⟩ (Or.inl rfl)).1

lemma suffix_total {α : Type} {l₁ l₂ l₃ : List α} (h₁ : l₁ <:+ l₃)
    (h₂ : l₂ <:+ l₃) : l₁ <:+ l₂ ∨ l₂ <:+ l₁ := by
  obtain ⟨t₁, ht₁⟩ := h₁
  obtain ⟨t₂, ht₂⟩ := h₂
  rcases List.append_eq_append_iff.mp (ht₁.trans ht₂.symm) with
    ⟨a, _, ha⟩ | ⟨c, _, hc⟩
  · exact Or.inr ⟨a, ha.symm⟩
  · exact Or.inl ⟨c, hc.symm⟩

lemma not_strEndsWith_of_ne_tail {s post : String} (tail : String)
    (zd : List Char) (hs : s.data = zd ++ tail.data)
    (h1 : ¬ post.data <:+ tail.data) (h2 : ¬ tail.data <:+ post.data) :
    ¬ strEndsWith s post := by
  rintro ⟨l, hl⟩
  have hsuf : post.data <:+ zd ++ tail.data := ⟨l, hl.symm.trans hs⟩
  rcases suffix_total hsuf (List.suffix_append zd tail.data) with h | h
  · exact h1 h
  · exact h2 h

set_option maxRecDepth 10000 in
/-- C6 counterexample: a file whose content is exactly the rewrite directive.
The fix-mode prompt embeds the file content verbatim between its delimiter
lines, so the assembled fix prompt does contain the directive, contradicting
the claim that fix prompts never contain it. -/
theorem C6_directive_counterexample :
    strContains (build_fix_prompt "x" rewriteDirective) rewriteDirective := by
  refine
    ⟨("You are a senior software engineer.\nFix all obvious bugs, inefficiencies, missing checks, and anti-patterns.\nPreserve the same external behavior and semantics.\n\nFile path: x\n\nCurrent content:\n----------------\n").data,
     ("\n----------------\n").data, ?_⟩
  decide

/-- C6 amended: for every path and file content the rewrite prompt ends with
the literal directive; the fix and refactor prompts never end with it (their
fixed delimiter tail differs from the directive), though the directive can
still occur inside them via the verbatim-embedded file content or path. -/
theorem C6_rewrite_directive_amended (path text : String) :
    strEndsWith (build_rewrite_prompt path text) rewriteDirective
    ∧ ¬ strEndsWith (build_fix_prompt path text) rewriteDirective
    ∧ ¬ strEndsWith (build_refactor_prompt path text) rewriteDirective := by
  refine ⟨?_, ?_, ?_⟩
  · refine ⟨(_lang_header_rewrite (detect_language path) ++
      "Original file path: " ++ path ++ "\n\n" ++
      "Original file content:\n" ++ "----------------------\n" ++
      text ++ "\n" ++ "----------------------\n").data, ?_⟩
    simp [build_rewrite_prompt, rewriteDirective, List.append_assoc]
  · exact not_strEndsWith_of_ne_tail "----------------\n"
      ((_lang_header_fix (detect_language path) ++ "File path: " ++ path ++
        "\n\n" ++ "Current content:\n" ++ "----------------\n" ++
        text ++ "\n").data)
      (by simp [build_fix_prompt, List.append_assoc])
      (by decide) (by decide)
  · exact not_strEndsWith_of_ne_tail "----------------\n"
      ((_lang_header_refactor (detect_language path) ++ "File path: " ++ path ++
        "\n\n" ++ "Current content:\n" ++ "----------------\n" ++
        text ++ "\n").data)
      (by simp [build_refactor_prompt, List.append_assoc])
      (by decide) (by decide)

/-- Witness for C6 at a concrete path and content. -/
theorem C6_directive_witness :
    strEndsWith (build_rewrite_prompt "m.rs" "fn main()") rewriteDirective :=
  (C6_rewrite_directive_amended "m.rs" "fn main()").1

/-- Modelled from the spec: the spec describes the listing of the
directory-level prompts as "the recursive enumeration of every filesystem
entry under the root, rendered as one path per line, with no filtering", so
this renders every entry, directories included.  It exists only to be
compared with `folderFileList`, the listing the source actually computes. -/
def specFolderListing (folder : String) (tree : List Entry) : String :=
  String.intercalate "\n" (tree.map fun e => renderPath folder e.path)

/-- Concrete tree with a directory entry and one (non-code) file inside it. -/
def treeL : List Entry := [⟨["sub"], false, ""⟩, ⟨["sub", "a.bin"], true, "z"⟩]

set_option maxRecDepth 10000 in
/-- C7 counterexample: on a tree containing a directory, the listing embedded
in both directory-level prompts omits the directory entry `r/sub`, so it is
not the enumeration of every filesystem entry; it coincides with the
per-line rendering of the regular files only. -/
theorem C7_listing_counterexample :
    specFolderListing "r" treeL = "r/sub\nr/sub/a.bin"
    ∧ folderFileList "r" treeL = "r/sub/a.bin"
    ∧ build_folder_analysis_prompt "r" treeL =
        "You are a principal-level software architect.\nAnalyze the ENTIRE project located at:\nr\n\nFiles included:\nr/sub/a.bin\n\nFor EVERY important code file, provide:\n- purpose summary\n- logic explanation\n- major bugs or risks\n- inefficiencies\n- weak architecture\n- security issues\n- dead code\n- concrete refactor recommendations\n\nThen propose:\n- improved folder structure\n- improved module boundaries\n- improved architecture\n- cleanup and modernization plan\n"
    ∧ build_project_qa_prompt "r" treeL "why" =
        "You are an expert senior engineer. Answer questions about this codebase.\n\nProject root: r\n\nFiles:\nr/sub/a.bin\n\nUser question:\nwhy"
    ∧ "r/sub/a.bin" ≠ "r/sub\nr/sub/a.bin" := by
  refine ⟨by decide, by decide, by decide, by decide, by decide⟩

/-- The per-line listing entries of the directory-level prompts, before they
are joined with newlines: the rendered paths of the regular files, in
enumeration order (the generator expression of lines 361 and 387). -/
def listingEntryPaths (folder : String) (tree : List Entry) : List String :=
  (tree.filter fun e => e.isFile).map fun e => renderPath folder e.path

set_option maxRecDepth 10000 in
/-- C7 amended: the listing embedded in the analyze-folder and project-QA
prompts enumerates exactly the regular files below the root (no filtering by
extension, but directories are excluded), one rendered path per line, and
that listing occurs verbatim inside both prompts. -/
theorem C7_listing_amended (folder question : String) (tree : List Entry)
    (hnd : (tree.map fun e => renderPath folder e.path).Nodup) :
    (∀ e ∈ tree,
      (renderPath folder e.path ∈ listingEntryPaths folder tree ↔
        e.isFile = true))
    ∧ folderFileList folder tree =
        String.intercalate "\n" (listingEntryPaths folder tree)
    ∧ strContains (build_folder_analysis_prompt folder tree)
        (folderFileList folder tree)
    ∧ strContains (build_project_qa_prompt folder tree question)
        (folderFileList folder tree) := by
  refine ⟨?_, rfl, ?_, ?_⟩
  · intro e he
    constructor
    · intro hmem
      obtain ⟨e2, he2, hren⟩ := List.mem_map.mp hmem
      obtain ⟨he2t, he2f⟩ := List.mem_filter.mp he2
      have : e2 = e := by
        have hinj := List.inj_on_of_nodup_map hnd
        exact hinj he2t he hren
      rw [← this]
      exact he2f
    · intro hfile
      exact List.mem_map_of_mem _ (List.mem_filter.mpr ⟨he, hfile⟩)
  · refine ⟨("You are a principal-level software architect.\n" ++
      "Analyze the ENTIRE project located at:\n" ++ folder ++ "\n\n" ++
      "Files included:\n").data,
      ("\n\n" ++
       "For EVERY important code file, provide:\n" ++
       "- purpose summary\n" ++
       "- logic explanation\n" ++
       "- major bugs or risks\n" ++
       "- inefficiencies\n" ++
       "- weak architecture\n" ++
       "- security issues\n" ++
       "- dead code\n" ++
       "- concrete refactor recommendations\n\n" ++
       "Then propose:\n" ++
       "- improved folder structure\n" ++
       "- improved module boundaries\n" ++
       "- improved architecture\n" ++
       "- cleanup and modernization plan\n").data, ?_⟩
    simp [build_folder_analysis_prompt, List.append_assoc]
  · refine ⟨("You are an expert senior engineer. Answer questions about this codebase.\n\n" ++
      "Project root: " ++ folder ++ "\n\n" ++ "Files:\n").data,
      ("\n\n" ++ "User question:\n" ++ question).data, ?_⟩
    simp [build_project_qa_prompt, List.append_assoc]

/-- Witness for C7: on the concrete tree the file below the directory is
listed and the directory itself is not. -/
theorem C7_listing_witness :
    renderPath "r" ["sub", "a.bin"] ∈ listingEntryPaths "r" treeL
    ∧ renderPath "r" ["sub"] ∉ listingEntryPaths "r" treeL := by
  have h := C7_listing_amended "r" "q" treeL (by decide)
  constructor
  · exact (h.1 ⟨["sub", "a.bin"], true, "z"⟩ (by decide)).mpr rfl
  · intro hmem
    have hfalse := (h.1 ⟨["sub"], false, ""⟩ (by decide)).mp hmem
    exact absurd hfalse (by decide)

end OmniFix
